import Mathlib

/-!
Verification development for the strava-to-fittrackee migration tool
(src/strava_to_fittrackee/s2f.py).  The Python source is shallowly embedded:
pure computations become Lean functions, HTTP responses become explicit
parameters, wall-clock times become integers (seconds), Python floats become
rationals, and Python exceptions become an explicit error type returned
through Except.  Fuel arguments make the unbounded while-loops of the source
total; a result of none models a loop that has not finished within the given
fuel.
-/

namespace S2F

/-- Error kinds raised by the embedded code, mirroring the Python exceptions
that the source can raise: KeyError on a missing dict key, ValueError on a
failed tuple unpacking, TypeError on subscripting a non-sequence or passing
None to json.loads, IndexError on indexing an empty list, UnboundLocalError
on reading an unassigned local, TooManyRequestsError (the custom subclass for
status 429), and the generic requests HTTPError carrying the status code. -/
inductive PyError where
  | keyError (key : String)
  | valueError
  | typeError
  | indexError
  | unboundLocalError
  | tooManyRequests
  | httpError (code : Nat)
  deriving DecidableEq, Repr

/-! ## Duplicate detection (s2f.py, activity_has_matching_workout)

Times are integers (seconds).  The list argument models the workouts that
the FitTrackee query restricted to the calendar date of the activity
returned; the 30-minute window is 1800 seconds.  The source filters with the
strict chained comparison lower_window < t < upper_window and reports a
duplicate when the filtered list is non-empty. -/

/-- Embedding of activity_has_matching_workout (s2f.py lines 890-918): given
the start time of the Strava activity and the timestamps of the FitTrackee
workouts returned for the same calendar date, filter those lying strictly
inside the open 30-minute window on both sides and test whether any remain. -/
def activity_has_matching_workout (activity_start : Int)
    (same_day_workouts : List Int) : Bool :=
  decide (0 < (same_day_workouts.filter (fun w =>
    decide (activity_start - 1800 < w) && decide (w < activity_start + 1800))).length)

/-! ## Rate-limit header parsing and backoff (s2f.py, custom_raise_for_status,
wait_until_fifteen) -/

/-- Lookup of a header by exact name, modelling access to dict(r.headers);
none models a KeyError on subscripting. -/
def lookupHeader (headers : List (String × String)) (key : String) : Option String :=
  (headers.find? (fun h => h.1 == key)).map (fun h => h.2)

/-- Splitting a character list at commas, modelling the str.split method of
Python with separator a comma. -/
def splitCommaAux : List Char → List Char → List (List Char)
  | [], cur => [cur.reverse]
  | c :: cs, cur =>
      if c = ',' then cur.reverse :: splitCommaAux cs [] else splitCommaAux cs (c :: cur)

/-- Destructuring assignment a, b = s.split(",") of the source: succeeds only
when the split yields exactly two parts; none models the ValueError raised by
unpacking any other number of parts. -/
def parsePair (s : String) : Option (String × String) :=
  match splitCommaAux s.toList [] with
  | [a, b] => some (String.mk a, String.mk b)
  | _ => none

/-- Embedding of custom_raise_for_status (s2f.py lines 178-194).  The source
first subscripts the X-RateLimit-Usage header and unpacks its comma-separated
value, then does the same for X-RateLimit-Limit, and only then inspects the
status code: 429 raises the custom TooManyRequestsError, any other 4xx/5xx
raises the generic HTTPError via raise_for_status, and otherwise the call
returns normally.  Logging is omitted. -/
def custom_raise_for_status (headers : List (String × String)) (status : Nat) :
    Except PyError Unit :=
  match lookupHeader headers "X-RateLimit-Usage" with
  | none => .error (.keyError "X-RateLimit-Usage")
  | some usage =>
    match parsePair usage with
    | none => .error .valueError
    | some _ =>
      match lookupHeader headers "X-RateLimit-Limit" with
      | none => .error (.keyError "X-RateLimit-Limit")
      | some lim =>
        match parsePair lim with
        | none => .error .valueError
        | some _ =>
          if status == 429 then .error .tooManyRequests
          else if 400 ≤ status && status < 600 then .error (.httpError status)
          else .ok ()

/-- Well-formedness of a response header set: both rate-limit headers are
present and carry a comma-separated pair, as every Strava API response does
according to the specification. -/
def headersOk (headers : List (String × String)) : Prop :=
  (∃ u, lookupHeader headers "X-RateLimit-Usage" = some u ∧ (parsePair u).isSome = true) ∧
  (∃ l, lookupHeader headers "X-RateLimit-Limit" = some l ∧ (parsePair l).isSome = true)

/-- Embedding of the target time computed by wait_until_fifteen (s2f.py lines
877-887): with now the current wall clock in seconds since datetime.min (a
midnight, so 15-minute boundaries are the multiples of 900), the source
computes now + (datetime.min - now) % timedelta(minutes=15), whose Python
semantics is now plus the nonnegative remainder of -now modulo 900. -/
def wait_until_fifteen (now : Int) : Int :=
  now + (0 - now) % 900

/-- Embedding of the polling loop of wait_until_fifteen: while the observed
clock is before the target, sleep and poll again.  The clock argument gives
the wall-clock value observed at each poll; the result is the index of the
poll at which the loop exits, or none when the fuel runs out first. -/
def wait_loop (clock : Nat → Int) (target : Int) : Nat → Nat → Option Nat
  | 0, _ => none
  | fuel + 1, i => if clock i < target then wait_loop clock target fuel (i + 1) else some i

/-- Embedding of the retry loop wrapped around each Strava request (s2f.py
lines 343-355 and 377-389): the request parameters are fixed outside the
loop, so attempt k of the identical request observes response k (headers and
status).  A response passing custom_raise_for_status ends the loop with the
index of the successful attempt; TooManyRequestsError is caught, the thread
waits, and the same request is retried; any other error propagates.  none
models fuel exhaustion (the loop still retrying). -/
def retry_request (responses : Nat → List (String × String) × Nat) :
    Nat → Nat → Option (Except PyError Nat)
  | 0, _ => none
  | fuel + 1, k =>
    match custom_raise_for_status (responses k).1 (responses k).2 with
    | .ok _ => some (.ok k)
    | .error .tooManyRequests => retry_request responses fuel (k + 1)
    | .error e => some (.error e)

/-! ## Strava pagination (s2f.py, get_activities with limit=None) -/

/-- Embedding of the limit=None branch of StravaConnector.get_activities
(s2f.py lines 333-368).  Pages are indexed from 1 as in the source; pages
page gives the JSON list returned for that page number (each fetch assumed to
pass custom_raise_for_status; the per-request 429 retry loop is modelled
separately by retry_request).  An empty page returns the accumulated list,
otherwise the page is appended and the page counter incremented.  Fuel bounds
the number of iterations; none models a loop still running. -/
def get_activities_all {α : Type} (pages : Nat → List α) :
    Nat → Nat → List α → Option (List α)
  | 0, _, _ => none
  | fuel + 1, page, acc =>
    if (pages page).isEmpty then some acc
    else get_activities_all pages fuel (page + 1) (acc ++ pages page)

/-- Concatenation of n consecutive pages starting at page start, in source
order; the reference value for the pagination theorem. -/
def concatPages {α : Type} (pages : Nat → List α) : Nat → Nat → List α
  | _, 0 => []
  | start, n + 1 => pages start ++ concatPages pages (start + 1) n

/-! ## FitTrackee workout listing and the sync watermark (s2f.py,
get_workouts and sync_strava_with_fittrackee lines 1023-1037) -/

/-- One page of the FitTrackee workouts endpoint: the workouts of the page
(only their timestamps matter for reconciliation, in seconds) and the
has_next flag of the pagination object. -/
structure WorkoutsPage where
  workouts : List Int
  has_next : Bool

/-- Python truthiness of the limit argument: None and 0 are falsy. -/
def limitTruthy : Option Nat → Bool
  | none => false
  | some 0 => false
  | some (_ + 1) => true

/-- Embedding of the while loop of FitTrackeeConnector.get_workouts (s2f.py
lines 697-720): while the previous response says has_next and (when limit is
truthy) fewer than limit workouts are accumulated, fetch the next page and
extend.  The initial results dict makes has_next true before the first
fetch. -/
def get_workouts_loop (pages : Nat → WorkoutsPage) (limit : Option Nat) :
    Nat → Nat → List Int → Bool → Option (List Int)
  | 0, _, _, _ => none
  | fuel + 1, page, acc, has_next =>
    if has_next && (if limitTruthy limit then decide (acc.length < limit.getD 0) else true) then
      get_workouts_loop pages limit fuel (page + 1) (acc ++ (pages page).workouts)
        (pages page).has_next
    else some acc

/-- Embedding of FitTrackeeConnector.get_workouts (s2f.py lines 681-725):
run the paging loop from page 1 and truncate to limit when limit is truthy. -/
def get_workouts (pages : Nat → WorkoutsPage) (limit : Option Nat) (fuel : Nat) :
    Option (List Int) :=
  (get_workouts_loop pages limit fuel 1 [] true).map
    (fun ws => if limitTruthy limit then ws.take (limit.getD 0) else ws)

/-- Embedding of the watermark computation of sync_strava_with_fittrackee
(s2f.py lines 1023-1037): query the most recent workout with limit 1; if one
exists its timestamp is the watermark, otherwise the source uses
datetime.fromtimestamp(0), the Unix epoch, which round-trips through
after.timestamp() as the integer 0. -/
def sync_watermark (pages : Nat → WorkoutsPage) (fuel : Nat) : Option Int :=
  match get_workouts pages (some 1) fuel with
  | none => none
  | some [] => some 0
  | some (w :: _) => some w

/-- Modelled from the spec: the minimum representable time of the watermark
claim, read as the minimum of the Python datetime type, datetime.min =
0001-01-01T00:00:00, here expressed in seconds relative to the Unix epoch
(719162 days before it). -/
def minimum_representable_time : Int := -62135596800

/-! ## Data model: gear, raw activities, the canonical Activity -/

/-- Relevant fields of the Strava gear record used by Activity.get_gear_note. -/
structure Gear where
  name : String
  converted_distance : String
  deriving DecidableEq, Repr

/-- Relevant fields of a raw Strava activity dict: id, name, parsed start
date (seconds since the Unix epoch; the strptime call of the source is
modelled by storing the already-parsed value), type tag, the manual flag, and
the optional gear id. -/
structure RawActivity where
  id : Nat
  name : String
  start_date : Int
  type : String
  manual : Bool
  gear_id : Option String
  deriving DecidableEq, Repr

/-- Distance attribute of an Activity: the scalar 0 assigned on the manual
path, or the cumulative distance stream (metres, as rationals). -/
inductive DistanceVal where
  | scalar (x : ℚ)
  | stream (xs : List ℚ)
  deriving DecidableEq, Repr

/-- Embedding of Activity.get_gear_note (s2f.py lines 577-586): empty when no
gear, otherwise the note built from the gear name and cumulative distance. -/
def get_gear_note : Option Gear → String
  | none => ""
  | some g =>
      "\n\nGear used: " ++ g.name ++ " (cumulative distance: " ++ g.converted_distance ++ ")"

/-- The canonical Activity record with the attributes assigned by
Activity.__init__ (s2f.py lines 498-523).  Latitudes, longitudes, altitudes
and velocities are optional rationals (None models missing GPS values); time
holds absolute timestamps in seconds. -/
structure Activity where
  title : String
  activity_dict : RawActivity
  start_time : Int
  lat : List (Option ℚ)
  long : List (Option ℚ)
  time : List Int
  altitude : List (Option ℚ)
  velocity : List (Option ℚ)
  distance : DistanceVal
  type : String
  link : String
  gear : Option Gear
  gear_note : String
  deriving DecidableEq, Repr

/-- Embedding of Activity.__init__ (s2f.py lines 499-523): split latlng into
the lat and long sequences, add each time offset to the parsed start time,
derive the link from the activity id, and compute the gear note. -/
def Activity.init (activity_dict : RawActivity)
    (latlng : List (Option ℚ × Option ℚ)) (time_list : List Int)
    (altitude velocity : List (Option ℚ)) (distance : DistanceVal)
    (gear : Option Gear) : Activity :=
  { title := activity_dict.name
    activity_dict := activity_dict
    start_time := activity_dict.start_date
    lat := latlng.map Prod.fst
    long := latlng.map Prod.snd
    time := time_list.map (fun t => activity_dict.start_date + t)
    altitude := altitude
    velocity := velocity
    distance := distance
    type := activity_dict.type
    link := "https://strava.com/activities/" ++ toString activity_dict.id
    gear := gear
    gear_note := get_gear_note gear }

/-- The dict produced by Activity.as_dict (s2f.py lines 525-540), one entry
per attribute; isoformat rendering of times is modelled by keeping the
integer values. -/
structure ActivityDict where
  title : String
  activity_dict : RawActivity
  start_time : Int
  lat : List (Option ℚ)
  long : List (Option ℚ)
  time : List Int
  altitude : List (Option ℚ)
  velocity : List (Option ℚ)
  distance : DistanceVal
  type : String
  link : String
  gear : Option Gear
  gear_note : String
  deriving DecidableEq, Repr

/-- Embedding of Activity.as_dict (s2f.py lines 525-540). -/
def Activity.as_dict (a : Activity) : ActivityDict :=
  { title := a.title
    activity_dict := a.activity_dict
    start_time := a.start_time
    lat := a.lat
    long := a.long
    time := a.time
    altitude := a.altitude
    velocity := a.velocity
    distance := a.distance
    type := a.type
    link := a.link
    gear := a.gear
    gear_note := a.gear_note }

/-! ## GPX serialization (s2f.py, Activity.as_gpx and
FitTrackeeConnector.upload_gpx) -/

/-- One GPX track point as built by the source: latitude, longitude,
elevation, timestamp, speed. -/
structure GPXPoint where
  lat : Option ℚ
  long : Option ℚ
  elevation : Option ℚ
  time : Int
  speed : Option ℚ
  deriving DecidableEq, Repr

/-- One GPX track segment. -/
structure GPXSegment where
  points : List GPXPoint
  deriving DecidableEq, Repr

/-- One GPX track.  The comment field carries the JSON-serialized Activity
dict; the JSON string encoding is modelled by the parsed value itself, the
round trip json.loads after json.dumps being the identity on these dicts.
A comment of none models a GPX file without a comment element, on which
json.loads(None) raises TypeError. -/
structure GPXTrack where
  name : String
  description : Option String
  link : Option String
  comment : Option ActivityDict
  segments : List GPXSegment
  deriving DecidableEq, Repr

/-- A GPX document: its list of tracks. -/
structure GPX where
  tracks : List GPXTrack
  deriving DecidableEq, Repr

/-- The zip of the five per-sample sequences performed by as_gpx; like the
zip builtin of Python it truncates to the shortest sequence. -/
def zip5points : List Int → List (Option ℚ) → List (Option ℚ) →
    List (Option ℚ) → List (Option ℚ) → List GPXPoint
  | t :: ts, la :: las, lo :: los, al :: als, v :: vs =>
      { lat := la, long := lo, elevation := al, time := t, speed := v } ::
        zip5points ts las los als vs
  | _, _, _, _, _ => []

/-- Embedding of Activity.as_gpx (s2f.py lines 542-571): one track whose name
is the title, whose description is the type, whose link is the activity link
and whose comment is the serialized Activity dict; one segment holding one
point per GPS sample in order. -/
def Activity.as_gpx (a : Activity) : GPX :=
  { tracks := [{
      name := a.title
      description := some a.type
      link := some a.link
      comment := some a.as_dict
      segments := [{ points := zip5points a.time a.lat a.long a.altitude a.velocity }] }] }

/-! ## Sport catalog and the sport id mapping (s2f.py,
FitTrackeeConnector.get_sport_id and the sport_id_map dict) -/

/-- One entry of the FitTrackee sport catalog: id and display label. -/
structure Sport where
  id : Nat
  label : String
  deriving DecidableEq, Repr

/-- Embedding of FitTrackeeConnector.get_sport_id (s2f.py lines 733-742):
filter the catalog by display label and return the id of the first match,
or None when no entry matches. -/
def get_sport_id (sports : List Sport) (sport_name : String) : Option Nat :=
  match sports.filter (fun s => s.label == sport_name) with
  | [] => none
  | s :: _ => some s.id

/-- Embedding of the sport_id_map dict built in FitTrackeeConnector.__init__
(s2f.py lines 613-627), as the partial lookup function of the dict: none
models a KeyError on a key not present in the dict, some v the stored value
(itself an Option, since get_sport_id can return None). -/
def sport_id_map (sports : List Sport) : Option String → Option (Option Nat)
  | none => some (some 1)
  | some "Ride" => some (get_sport_id sports "Cycling (Sport)")
  | some "VirtualRide" => some (get_sport_id sports "Cycling (Virtual)")
  | some "Hike" => some (get_sport_id sports "Hiking")
  | some "Walk" => some (get_sport_id sports "Walking")
  | some "MountainBikeRide" => some (get_sport_id sports "Mountain Biking")
  | some "EMountainBikeRide" => some (get_sport_id sports "Mountain Biking (Electric)")
  | some "Rowing" => some (get_sport_id sports "Rowing")
  | some "Run" => some (get_sport_id sports "Running")
  | some "AlpineSki" => some (get_sport_id sports "Skiing (Alpine)")
  | some "NordicSki" => some (get_sport_id sports "Skiing (Cross Country)")
  | some "Snowshoe" => some (get_sport_id sports "Snowshoes")
  | some "TrailRun" => some (get_sport_id sports "Trail")
  | some _ => none

/-- The Strava type tags that are keys of sport_id_map, paired with the
FitTrackee display label each one is resolved through, exactly as enumerated
in the dict literal. -/
def strava_sport_pairs : List (String × String) :=
  [("Ride", "Cycling (Sport)"), ("VirtualRide", "Cycling (Virtual)"),
   ("Hike", "Hiking"), ("Walk", "Walking"),
   ("MountainBikeRide", "Mountain Biking"),
   ("EMountainBikeRide", "Mountain Biking (Electric)"),
   ("Rowing", "Rowing"), ("Run", "Running"), ("AlpineSki", "Skiing (Alpine)"),
   ("NordicSki", "Skiing (Cross Country)"), ("Snowshoe", "Snowshoes"),
   ("TrailRun", "Trail")]

/-- The string keys of the sport_id_map dict (besides the None key). -/
def sport_map_keys : List String := strava_sport_pairs.map Prod.fst

/-! ## GPX upload (s2f.py, FitTrackeeConnector.upload_gpx) -/

/-- The metadata read back from a parsed GPX file by upload_gpx (s2f.py lines
777-789): the activity type from the description of the first track, the url
from its link, and the Activity dict from its JSON comment.  A file without
tracks yields three Nones with a warning; a first track without a comment
makes json.loads raise TypeError. -/
def upload_gpx_extract (g : GPX) :
    Except PyError (Option String × Option String × Option ActivityDict) :=
  match g.tracks with
  | t :: _ =>
    match t.comment with
    | some d => .ok (t.description, t.link, some d)
    | none => .error .typeError
  | [] => .ok (none, none, none)

/-- The payload assembled by upload_gpx before the POST: the resolved sport
id (after the optional per-start-time override from
correct_sport_types.csv), the Strava url appended to the notes when truthy,
and the gear note appended when the embedded dict was present.  The constant
notes text is omitted. -/
structure UploadData where
  sport_id : Option Nat
  notes_url : Option String
  notes_gear : Option String
  deriving DecidableEq, Repr

/-- Embedding of the payload construction of FitTrackeeConnector.upload_gpx
(s2f.py lines 753-830) on an already-parsed GPX document.  types_by_time is
the override table read from correct_sport_types.csv, keyed by the formatted
start time of the first point (modelled by the integer timestamp).  After the
metadata extraction the sport id is looked up in sport_id_map (KeyError when
the type tag is not a key); then the start time of the first point of the
first segment of the first track is read (IndexError when absent, also for a
file without tracks, whose extraction phase returned three Nones); the
override replaces the sport id when it differs. -/
def upload_gpx_payload (sports : List Sport) (types_by_time : List (Int × Nat))
    (g : GPX) : Except PyError UploadData :=
  match upload_gpx_extract g with
  | .error e => .error e
  | .ok (activity_type, url, activity_dict) =>
    match sport_id_map sports activity_type with
    | none => .error (.keyError (activity_type.getD "None"))
    | some sid =>
      match g.tracks with
      | [] => .error .indexError
      | t :: _ =>
        match t.segments with
        | [] => .error .indexError
        | seg :: _ =>
          match seg.points with
          | [] => .error .indexError
          | p :: _ =>
            let sid2 : Option Nat :=
              match types_by_time.lookup p.time with
              | some s2 => if sid ≠ some s2 then some s2 else sid
              | none => sid
            .ok { sport_id := sid2
                  notes_url := match url with
                    | some u => if u = "" then none else some u
                    | none => none
                  notes_gear := activity_dict.map (fun d => d.gear_note) }

/-! ## No-GPX upload (s2f.py, FitTrackeeConnector.upload_no_gpx) -/

/-- The payload assembled by upload_no_gpx: sport id, appended note parts,
title, distance in kilometres, duration in seconds, and the localized
workout date (minute formatting abstracted; tz_offset is the offset of the
user timezone in seconds). -/
structure NoGpxPayload where
  sport_id : Option Nat
  notes_url : Option String
  notes_gear : String
  title : String
  distance : ℚ
  duration : Int
  workout_date : Int
  deriving DecidableEq, Repr

/-- Embedding of FitTrackeeConnector.upload_no_gpx (s2f.py lines 833-874).
The dict literal of the source evaluates sport_id first (KeyError when the
type is not a key of sport_id_map), then distance via activity.distance[-1]
(TypeError when distance is the scalar of the manual path, IndexError on an
empty stream) divided by 1000, then duration as the seconds attribute of the
timedelta between the last and first sample timestamps, whose Python value
is the nonnegative remainder modulo 86400 of the difference. -/
def upload_no_gpx (sports : List Sport) (tz_offset : Int) (a : Activity) :
    Except PyError NoGpxPayload :=
  match sport_id_map sports (some a.type) with
  | none => .error (.keyError a.type)
  | some sid =>
    match a.distance with
    | .scalar _ => .error .typeError
    | .stream ds =>
      match ds.getLast? with
      | none => .error .indexError
      | some dlast =>
        match a.time.getLast?, a.time.head? with
        | some tl, some t0 =>
            .ok { sport_id := sid
                  notes_url := if a.link = "" then none else some a.link
                  notes_gear := a.gear_note
                  title := a.title
                  distance := dlast / 1000
                  duration := (tl - t0) % 86400
                  workout_date := a.start_time + tz_offset }
        | _, _ => .error .indexError

/-! ## Record normalization (s2f.py, StravaConnector.filter_response_by_key
and create_activity_from_strava) -/

/-- Embedding of StravaConnector.filter_response_by_key (s2f.py lines
421-432): an empty (falsy) response returns the caller-supplied default;
otherwise the datasets are filtered by their type label and the data of the
first match is returned, the default again when none matches.  The response
is a list of labelled datasets; the data type is generic as in the
duck-typed source. -/
def filter_response_by_key {α : Type} (response : List (String × α))
    (type_key : String) (null_return : α) : α :=
  if response.isEmpty then null_return
  else
    match response.filter (fun d => d.1 == type_key) with
    | [] => null_return
    | d :: _ => d.2

/-- Embedding of StravaConnector.create_activity_from_strava (s2f.py lines
435-495).  The four stream responses are passed in as parameters; the latlng
response is filtered twice in the source (keys latlng and distance), which is
modelled by the two typed views latlngResp and distResp of that response.
gear_of models StravaConnector.get_gear; the source resolves gear only when
gear_id is truthy.  When the activity is manual and streams were requested,
the source switches get_streams off and sets distance to the scalar 0; when
get_streams is false from the caller, the local distance is never assigned
and constructing the Activity raises UnboundLocalError. -/
def create_activity_from_strava (activity : RawActivity)
    (latlngResp : List (String × List (Option ℚ × Option ℚ)))
    (distResp : List (String × List ℚ))
    (timeResp : List (String × List Int))
    (altResp : List (String × List (Option ℚ)))
    (velResp : List (String × List (Option ℚ)))
    (gear_of : String → Gear) (get_streams : Bool) : Except PyError Activity :=
  let manualShortcut := activity.manual && get_streams
  let gs := if manualShortcut then false else get_streams
  let gear : Option Gear :=
    match activity.gear_id with
    | some gid => if gid = "" then none else some (gear_of gid)
    | none => none
  if gs then
    .ok (Activity.init activity
      (filter_response_by_key latlngResp "latlng" [(none, none)])
      (filter_response_by_key timeResp "time" [0])
      (filter_response_by_key altResp "altitude" [none])
      (filter_response_by_key velResp "velocity_smooth" [none])
      (DistanceVal.stream (filter_response_by_key distResp "distance" [0]))
      gear)
  else
    if manualShortcut then
      .ok (Activity.init activity [(none, none)] [0] [none] [none]
        (DistanceVal.scalar 0) gear)
    else
      .error .unboundLocalError

/-! ## Helper lemmas -/

/-- A filtered list has positive length exactly when some element of the
original list satisfies the predicate. -/
theorem length_filter_pos_iff {α : Type} (p : α → Bool) (l : List α) :
    0 < (l.filter p).length ↔ ∃ a ∈ l, p a = true := by
  induction l with
  | nil => simp
  | cons x xs ih =>
    by_cases h : p x = true
    · simp [List.filter_cons, h]
    · simp [List.filter_cons, h, ih]

/-- One-step unfolding of the pagination loop at positive fuel. -/
theorem get_activities_all_succ {α : Type} (pages : Nat → List α)
    (fuel page : Nat) (acc : List α) :
    get_activities_all pages (fuel + 1) page acc =
      if (pages page).isEmpty then some acc
      else get_activities_all pages fuel (page + 1) (acc ++ pages page) := rfl

/-- With every page before p + f non-empty and page p + f empty, the
pagination loop started at page p with fuel f + 1 returns the accumulator
followed by the pages p, ..., p + f - 1 in order. -/
theorem get_activities_all_eq_concat {α : Type} (pages : Nat → List α) :
    ∀ (f p : Nat) (acc : List α),
      (∀ i, p ≤ i → i < p + f → pages i ≠ []) → pages (p + f) = [] →
      get_activities_all pages (f + 1) p acc = some (acc ++ concatPages pages p f) := by
  intro f
  induction f with
  | zero =>
    intro p acc _ hempty
    rw [Nat.add_zero] at hempty
    simp [get_activities_all, concatPages, hempty]
  | succ f ih =>
    intro p acc hne hempty
    have hp : pages p ≠ [] := hne p (Nat.le_refl p) (by omega)
    have hstep : get_activities_all pages (f + 1 + 1) p acc =
        get_activities_all pages (f + 1) (p + 1) (acc ++ pages p) := by
      rw [get_activities_all_succ, if_neg (by simp [List.isEmpty_iff, hp])]
    rw [hstep, ih (p + 1) (acc ++ pages p)
      (fun i h1 h2 => hne i (by omega) (by omega))
      (by have : p + 1 + f = p + (f + 1) := by omega
          rw [this]; exact hempty)]
    simp [concatPages, List.append_assoc]

/-- With every page in the f pages from page p non-empty, the pagination
loop cannot finish within fuel f. -/
theorem get_activities_all_needs_fuel {α : Type} (pages : Nat → List α) :
    ∀ (f p : Nat) (acc : List α),
      (∀ i, p ≤ i → i < p + f → pages i ≠ []) →
      get_activities_all pages f p acc = none := by
  intro f
  induction f with
  | zero => intro p acc _; rfl
  | succ f ih =>
    intro p acc hne
    have hp : pages p ≠ [] := hne p (Nat.le_refl p) (by omega)
    have hstep : get_activities_all pages (f + 1) p acc =
        get_activities_all pages f (p + 1) (acc ++ pages p) := by
      rw [get_activities_all_succ, if_neg (by simp [List.isEmpty_iff, hp])]
    rw [hstep]
    exact ih (p + 1) (acc ++ pages p) (fun i h1 h2 => hne i (by omega) (by omega))

/-! ## Claim theorems -/

/-- C1: for every source activity start time and every list of sink workouts
returned for the calendar date of the activity, activity_has_matching_workout
classifies the activity as a duplicate exactly when some returned workout
timestamp lies strictly inside the open interval from 30 minutes before to 30
minutes after the start time; a workout at exactly 30 minutes away, or
further, does not make it a duplicate. -/
theorem duplicate_iff_strictly_within_window (t : Int) (ws : List Int) :
    activity_has_matching_workout t ws = true ↔
      ∃ w ∈ ws, t - 1800 < w ∧ w < t + 1800 := by
  unfold activity_has_matching_workout
  rw [decide_eq_true_eq, length_filter_pos_iff]
  simp

/-- C2: serializing an Activity with Activity.as_gpx and reading the file
back with the extraction phase of upload_gpx recovers the type from the
track description, the link from the track link, and the gear note from the
embedded JSON comment, exactly. -/
theorem gpx_roundtrip_preserves_metadata (a : Activity) (_h : a.lat ≠ []) :
    upload_gpx_extract a.as_gpx = .ok (some a.type, some a.link, some a.as_dict) ∧
      a.as_dict.gear_note = a.gear_note :=
  ⟨rfl, rfl⟩

/-- Witness for C2 at a concrete one-sample activity with gear. -/
theorem gpx_roundtrip_preserves_metadata_witness :
    upload_gpx_extract (Activity.init ⟨1, "Morning Ride", 1600000000, "Ride", false, some "b1"⟩
        [(some (465/10), some (-93/2))] [0] [some 250] [some (11/2)]
        (DistanceVal.stream [0]) (some ⟨"Bike", "1234.5 km"⟩)).as_gpx =
      .ok (some (Activity.init ⟨1, "Morning Ride", 1600000000, "Ride", false, some "b1"⟩
        [(some (465/10), some (-93/2))] [0] [some 250] [some (11/2)]
        (DistanceVal.stream [0]) (some ⟨"Bike", "1234.5 km"⟩)).type,
        some (Activity.init ⟨1, "Morning Ride", 1600000000, "Ride", false, some "b1"⟩
        [(some (465/10), some (-93/2))] [0] [some 250] [some (11/2)]
        (DistanceVal.stream [0]) (some ⟨"Bike", "1234.5 km"⟩)).link,
        some (Activity.init ⟨1, "Morning Ride", 1600000000, "Ride", false, some "b1"⟩
        [(some (465/10), some (-93/2))] [0] [some 250] [some (11/2)]
        (DistanceVal.stream [0]) (some ⟨"Bike", "1234.5 km"⟩)).as_dict) ∧
      (Activity.init ⟨1, "Morning Ride", 1600000000, "Ride", false, some "b1"⟩
        [(some (465/10), some (-93/2))] [0] [some 250] [some (11/2)]
        (DistanceVal.stream [0]) (some ⟨"Bike", "1234.5 km"⟩)).as_dict.gear_note =
      (Activity.init ⟨1, "Morning Ride", 1600000000, "Ride", false, some "b1"⟩
        [(some (465/10), some (-93/2))] [0] [some 250] [some (11/2)]
        (DistanceVal.stream [0]) (some ⟨"Bike", "1234.5 km"⟩)).gear_note :=
  gpx_roundtrip_preserves_metadata _ (by simp [Activity.init])

/-- C3 (code bug evidence): on the manual path of sync, the normalizer sets
distance to the scalar 0, and upload_no_gpx then evaluates distance[-1],
which raises TypeError instead of posting; so the claimed payload is never
produced for a truly manual activity.  The second conjunct shows that for a
no-GPS activity whose distance is a cumulative stream (the other route into
the no-GPS path of sync), the posted duration is the difference of last and
first sample timestamps in whole seconds and the distance is the last
cumulative value divided by 1000, as the claim states. -/
theorem upload_no_gpx_manual_typeerror_and_stream_payload :
    Except.bind
      (create_activity_from_strava ⟨42, "Morning Run", 1700000000, "Run", true, none⟩
        [] [] [] [] [] (fun _ => ⟨"", ""⟩) true)
      (upload_no_gpx [⟨5, "Running"⟩] 0) = .error .typeError ∧
    upload_no_gpx [⟨5, "Running"⟩] 0
      (Activity.init ⟨43, "Evening Run", 1700000000, "Run", false, none⟩
        [(none, none)] [0, 600] [none] [none] (DistanceVal.stream [1000, 2500]) none) =
      .ok { sport_id := some 5
            notes_url := some "https://strava.com/activities/43"
            notes_gear := ""
            title := "Evening Run"
            distance := 2500 / 1000
            duration := 600
            workout_date := 1700000000 } :=
  ⟨rfl, rfl⟩

/-- C4 counterexample: with a sport catalog that has no entry labelled
Running, the sport_id_map entry for the type tag Run is the stored value
None produced by get_sport_id, not the default catalog id 1 that the claim
asserts. -/
theorem run_without_running_entry_resolves_to_none :
    sport_id_map [⟨1, "Cycling (Sport)"⟩] (some "Run") = some none ∧
      (some none : Option (Option Nat)) ≠ some (some 1) :=
  ⟨rfl, by simp⟩

/-- C4 amended: for every sport catalog and every type tag that is a key of
sport_id_map, when no catalog entry carries the display label that the tag
is resolved through, the dict stores None for that tag (the lookup succeeds,
so no error is raised, but the resolved sport id is None rather than the
default 1); the fallback to catalog id 1 applies only to the None key used
when an uploaded GPX file has no activity type. -/
theorem unmatched_catalog_label_resolves_to_none (sports : List Sport)
    (tag ftName : String) (hmem : (tag, ftName) ∈ strava_sport_pairs)
    (hno : ∀ s ∈ sports, s.label ≠ ftName) :
    sport_id_map sports (some tag) = some none ∧
      sport_id_map sports none = some (some 1) := by
  have hgs : get_sport_id sports ftName = none := by
    unfold get_sport_id
    have hf : sports.filter (fun s => s.label == ftName) = [] := by
      rw [List.filter_eq_nil_iff]
      intro s hs
      simpa using hno s hs
    rw [hf]
  have hmap : ∀ p ∈ strava_sport_pairs,
      sport_id_map sports (some p.1) = some (get_sport_id sports p.2) := by
    intro p hp
    fin_cases hp <;> rfl
  have h1 := hmap (tag, ftName) hmem
  exact ⟨by rw [h1, hgs], rfl⟩

/-- Witness for the amended C4 at the empty catalog and the Run tag. -/
theorem unmatched_catalog_label_resolves_to_none_witness :
    sport_id_map [] (some "Run") = some none ∧
      sport_id_map [] none = some (some 1) :=
  unmatched_catalog_label_resolves_to_none [] "Run" "Running"
    (by simp [strava_sport_pairs]) (by simp)

/-- C5 (code bug evidence): a manual activity with streams requested is
normalized to the sentinel Activity (one sample, null latitude, longitude,
altitude and velocity, time offset 0, scalar distance 0), confirming the
manual half of the claim; but whenever the caller omits the stream fetch
(get_streams false), for a manual or a non-manual activity alike, the local
distance is never assigned and the source raises UnboundLocalError instead
of producing that sentinel Activity. -/
theorem manual_sentinel_and_omitted_streams_unbound :
    (∃ a, create_activity_from_strava ⟨42, "Morning Run", 1700000000, "Run", true, none⟩
        [] [] [] [] [] (fun _ => ⟨"", ""⟩) true = .ok a ∧
      a.lat = [none] ∧ a.long = [none] ∧ a.altitude = [none] ∧ a.velocity = [none] ∧
      a.time = [(1700000000 : Int)] ∧ a.distance = DistanceVal.scalar 0) ∧
    create_activity_from_strava ⟨44, "Ride", 1700000000, "Ride", false, none⟩
      [] [] [] [] [] (fun _ => ⟨"", ""⟩) false = .error .unboundLocalError ∧
    create_activity_from_strava ⟨42, "Morning Run", 1700000000, "Run", true, none⟩
      [] [] [] [] [] (fun _ => ⟨"", ""⟩) false = .error .unboundLocalError :=
  ⟨⟨_, rfl, rfl, rfl, rfl, rfl, rfl, rfl⟩, rfl, rfl⟩

/-- C6: when k is the first page number at which the source returns an empty
page, the limit=None loop of get_activities terminates exactly there — it
finishes within k fetches (first conjunct) and not within k - 1 (second
conjunct) — and returns the concatenation of pages 1 through k - 1 in source
order. -/
theorem pagination_stops_at_first_empty_page {α : Type} (pages : Nat → List α)
    (k : Nat) (hk : 1 ≤ k) (hempty : pages k = [])
    (hmin : ∀ i, 1 ≤ i → i < k → pages i ≠ []) :
    get_activities_all pages k 1 [] = some (concatPages pages 1 (k - 1)) ∧
      get_activities_all pages (k - 1) 1 [] = none := by
  obtain ⟨f, rfl⟩ : ∃ f, k = f + 1 := ⟨k - 1, by omega⟩
  rw [Nat.add_sub_cancel]
  constructor
  · have h := get_activities_all_eq_concat pages f 1 []
      (fun i h1 h2 => hmin i h1 (by omega))
      (by have : 1 + f = f + 1 := by omega
          rw [this]; exact hempty)
    simpa using h
  · exact get_activities_all_needs_fuel pages f 1 []
      (fun i h1 h2 => hmin i h1 (by omega))

/-- Witness for C6: a source with two non-empty pages and an empty third page
yields the six activities in order within fuel 3 and is still running at
fuel 2. -/
theorem pagination_stops_at_first_empty_page_witness :
    get_activities_all
        (fun n => if n = 1 then [10, 20] else if n = 2 then [30] else ([] : List Nat))
        3 1 [] = some [10, 20, 30] ∧
      get_activities_all
        (fun n => if n = 1 then [10, 20] else if n = 2 then [30] else ([] : List Nat))
        2 1 [] = none := by
  have h := pagination_stops_at_first_empty_page
    (fun n => if n = 1 then [10, 20] else if n = 2 then [30] else ([] : List Nat))
    3 (by omega) (by simp) (by intro i h1 h2; interval_cases i <;> simp)
  simpa [concatPages] using h

/-- One-step unfolding of the request retry loop at positive fuel. -/
theorem retry_request_succ (responses : Nat → List (String × String) × Nat)
    (fuel k : Nat) :
    retry_request responses (fuel + 1) k =
      match custom_raise_for_status (responses k).1 (responses k).2 with
      | .ok _ => some (.ok k)
      | .error .tooManyRequests => retry_request responses fuel (k + 1)
      | .error e => some (.error e) := rfl

/-- The retry loop never returns the rate-limit error: every 429 is caught
and retried, so TooManyRequestsError cannot surface from the loop. -/
theorem retry_request_never_surfaces_429
    (responses : Nat → List (String × String) × Nat) :
    ∀ fuel k, retry_request responses fuel k ≠ some (.error .tooManyRequests) := by
  intro fuel
  induction fuel with
  | zero => intro k; simp [retry_request]
  | succ f ih =>
    intro k
    rw [retry_request_succ]
    rcases hres : custom_raise_for_status (responses k).1 (responses k).2 with e | v
    · cases e <;> simp
      exact ih (k + 1)
    · simp

/-- The polling loop of wait_until_fifteen exits only at a poll whose
observed clock has reached the target. -/
theorem wait_loop_exits_at_or_after (clock : Nat → Int) (target : Int) :
    ∀ fuel i j, wait_loop clock target fuel i = some j → target ≤ clock j := by
  intro fuel
  induction fuel with
  | zero => intro i j h; simp [wait_loop] at h
  | succ f ih =>
    intro i j h
    unfold wait_loop at h
    split at h
    · exact ih (i + 1) j h
    · next hlt =>
        simp only [Option.some.injEq] at h
        subst h
        omega

/-- C7: a 429 response with the rate-limit headers present raises the
distinct TooManyRequestsError, which is not the generic HTTPError of any
status; the retry loop never surfaces that error as a failure and, on a 429,
continues with the identical request (the next attempt of the same fixed
request); the backoff target computed from the current wall clock is the
next 15-minute boundary (a multiple of 900 seconds, at or after now and less
than 900 seconds away), and the polling loop cannot finish before the
observed clock reaches that boundary. -/
theorem rate_limit_backoff_protocol (headers : List (String × String))
    (h : headersOk headers) (now : Int) :
    custom_raise_for_status headers 429 = .error .tooManyRequests ∧
    (∀ c, (PyError.tooManyRequests : PyError) ≠ .httpError c) ∧
    (∀ responses : Nat → List (String × String) × Nat, ∀ fuel k,
      retry_request responses fuel k ≠ some (.error .tooManyRequests)) ∧
    (∀ responses : Nat → List (String × String) × Nat, ∀ fuel k,
      custom_raise_for_status (responses k).1 (responses k).2 = .error .tooManyRequests →
      retry_request responses (fuel + 1) k = retry_request responses fuel (k + 1)) ∧
    wait_until_fifteen now % 900 = 0 ∧
    now ≤ wait_until_fifteen now ∧
    wait_until_fifteen now < now + 900 ∧
    (∀ clock fuel i j, wait_loop clock (wait_until_fifteen now) fuel i = some j →
      wait_until_fifteen now ≤ clock j) := by
  obtain ⟨⟨u, hu, hpu⟩, ⟨l, hl, hpl⟩⟩ := h
  obtain ⟨pu, hpu2⟩ := Option.isSome_iff_exists.mp hpu
  obtain ⟨pl, hpl2⟩ := Option.isSome_iff_exists.mp hpl
  refine ⟨?_, by simp, ?_, ?_, ?_, ?_, ?_, ?_⟩
  · simp [custom_raise_for_status, hu, hpu2, hl, hpl2]
  · exact retry_request_never_surfaces_429
  · intro responses fuel k h429
    rw [retry_request_succ, h429]
  · unfold wait_until_fifteen; omega
  · unfold wait_until_fifteen; omega
  · unfold wait_until_fifteen; omega
  · exact fun clock => wait_loop_exits_at_or_after clock _

/-- Witness for C7 at a concrete header set, wall-clock time 1000, and the
429 status. -/
theorem rate_limit_backoff_protocol_witness :
    custom_raise_for_status
        [("X-RateLimit-Usage", "50,300"), ("X-RateLimit-Limit", "100,1000")] 429 =
      .error .tooManyRequests ∧
    wait_until_fifteen 1000 % 900 = 0 ∧ (1000 : Int) ≤ wait_until_fifteen 1000 ∧
    wait_until_fifteen 1000 < 1000 + 900 := by
  have h := rate_limit_backoff_protocol
    [("X-RateLimit-Usage", "50,300"), ("X-RateLimit-Limit", "100,1000")]
    ⟨⟨"50,300", rfl, rfl⟩, ⟨"100,1000", rfl, rfl⟩⟩ 1000
  exact ⟨h.1, h.2.2.2.2.1, h.2.2.2.2.2.1, h.2.2.2.2.2.2.1⟩

/-- One-step unfolding of the workout paging loop at positive fuel. -/
theorem get_workouts_loop_succ (pages : Nat → WorkoutsPage) (limit : Option Nat)
    (fuel page : Nat) (acc : List Int) (has_next : Bool) :
    get_workouts_loop pages limit (fuel + 1) page acc has_next =
      if has_next && (if limitTruthy limit then decide (acc.length < limit.getD 0) else true) then
        get_workouts_loop pages limit fuel (page + 1) (acc ++ (pages page).workouts)
          (pages page).has_next
      else some acc := rfl

/-- The limit argument 1 of the watermark query is truthy. -/
theorem limitTruthy_one : limitTruthy (some 1) = true := rfl

/-- C8 amended: when the first workouts page of the sink is empty with no
next page (the sink holds no workouts), the sync watermark is the Unix epoch
timestamp 0 produced by datetime.fromtimestamp(0); when the sink has at
least one workout, the watermark is the timestamp of the first workout of
the limit-1 query, the most recent one. -/
theorem sync_watermark_epoch_or_latest (pages : Nat → WorkoutsPage) (f : Nat) :
    ((pages 1).workouts = [] → (pages 1).has_next = false →
      sync_watermark pages (f + 2) = some 0) ∧
    (∀ w rest, (pages 1).workouts = w :: rest → sync_watermark pages (f + 2) = some w) := by
  constructor
  · intro hw hn
    unfold sync_watermark get_workouts
    rw [show f + 2 = f + 1 + 1 from rfl, get_workouts_loop_succ,
      if_pos (by rw [limitTruthy_one]; decide), hw, hn, get_workouts_loop_succ]
    simp
  · intro w rest hw
    unfold sync_watermark get_workouts
    rw [show f + 2 = f + 1 + 1 from rfl, get_workouts_loop_succ,
      if_pos (by rw [limitTruthy_one]; decide), hw, get_workouts_loop_succ,
      if_neg (by rw [limitTruthy_one]; simp)]
    simp [limitTruthy_one]

/-- C8 counterexample: for a sink with no workouts at all, the watermark is
the Unix epoch timestamp 0, which is not the minimum representable time of
the datetime type. -/
theorem empty_sink_watermark_is_epoch_not_minimum :
    sync_watermark (fun _ => ⟨[], false⟩) 2 = some 0 ∧
      (0 : Int) ≠ minimum_representable_time :=
  ⟨rfl, by decide⟩

/-- Witness for the amended C8 on an empty sink and on a sink whose most
recent workout is at timestamp 1690000000. -/
theorem sync_watermark_epoch_or_latest_witness :
    sync_watermark (fun _ => ⟨[], false⟩) 2 = some 0 ∧
      sync_watermark (fun _ => ⟨[1690000000], true⟩) 2 = some 1690000000 :=
  ⟨(sync_watermark_epoch_or_latest (fun _ => ⟨[], false⟩) 0).1 rfl rfl,
    (sync_watermark_epoch_or_latest (fun _ => ⟨[1690000000], true⟩) 0).2
      1690000000 [] rfl⟩

/-- C9 counterexample: a response that carries a malformed
X-RateLimit-Usage value while lacking X-RateLimit-Limit makes
custom_raise_for_status raise ValueError (from the two-part unpacking of the
usage value), not a KeyError as the claim states for every response lacking
one of the two headers. -/
theorem malformed_usage_missing_limit_raises_valueerror :
    custom_raise_for_status [("X-RateLimit-Usage", "100")] 200 = .error .valueError ∧
      ∀ k, custom_raise_for_status [("X-RateLimit-Usage", "100")] 200 ≠
        .error (.keyError k) := by
  have h : custom_raise_for_status [("X-RateLimit-Usage", "100")] 200 =
      .error .valueError := rfl
  exact ⟨h, fun k => by rw [h]; simp⟩

/-- C9 amended: for every response lacking the X-RateLimit-Usage or the
X-RateLimit-Limit header, custom_raise_for_status raises an error before any
status check — the result does not depend on the status code, so a 200
response without the headers is fatal.  When the usage header is absent the
error is the KeyError on X-RateLimit-Usage; when the usage header is present
and well-formed but the limit header is absent, it is the KeyError on
X-RateLimit-Limit (a present but malformed usage value raises ValueError
first instead). -/
theorem missing_rate_headers_fatal_before_status (headers : List (String × String))
    (status : Nat)
    (h : lookupHeader headers "X-RateLimit-Usage" = none ∨
      lookupHeader headers "X-RateLimit-Limit" = none) :
    (∃ e, custom_raise_for_status headers status = .error e) ∧
    (∀ s2, custom_raise_for_status headers status = custom_raise_for_status headers s2) ∧
    (lookupHeader headers "X-RateLimit-Usage" = none →
      custom_raise_for_status headers status = .error (.keyError "X-RateLimit-Usage")) ∧
    (∀ u, lookupHeader headers "X-RateLimit-Usage" = some u →
      (parsePair u).isSome = true →
      lookupHeader headers "X-RateLimit-Limit" = none →
      custom_raise_for_status headers status = .error (.keyError "X-RateLimit-Limit")) := by
  rcases hu : lookupHeader headers "X-RateLimit-Usage" with _ | u
  · refine ⟨⟨.keyError "X-RateLimit-Usage", ?_⟩, ?_, ?_, ?_⟩ <;>
      simp [custom_raise_for_status, hu]
  · have hl : lookupHeader headers "X-RateLimit-Limit" = none := by
      rcases h with h | h
      · rw [hu] at h; exact absurd h (by simp)
      · exact h
    rcases hp : parsePair u with _ | p
    · refine ⟨⟨.valueError, ?_⟩, ?_, ?_, ?_⟩ <;>
        simp [custom_raise_for_status, hu, hp, hl]
    · refine ⟨⟨.keyError "X-RateLimit-Limit", ?_⟩, ?_, ?_, ?_⟩ <;>
        simp [custom_raise_for_status, hu, hp, hl]

/-- Witness for the amended C9: a 200 response with no headers at all is
fatal with the KeyError on X-RateLimit-Usage. -/
theorem missing_rate_headers_fatal_before_status_witness :
    custom_raise_for_status [] 200 = .error (.keyError "X-RateLimit-Usage") :=
  (missing_rate_headers_fatal_before_status [] 200 (Or.inl rfl)).2.2.1 rfl

/-- A type tag that is not among the string keys of the sport_id_map dict
makes the dict lookup fail (a KeyError). -/
theorem sport_id_map_none_of_not_key (sports : List Sport) (ty : String)
    (h : ty ∉ sport_map_keys) : sport_id_map sports (some ty) = none := by
  unfold sport_id_map
  split <;> simp_all [sport_map_keys, strava_sport_pairs]

/-- C10 counterexample: a GPX file whose first track has the unmapped
description Swim but no comment element makes upload_gpx raise TypeError
(json.loads applied to None) before the sport lookup, not the KeyError the
claim states for every such file. -/
theorem missing_comment_fails_with_typeerror_not_keyerror :
    upload_gpx_payload [] [] ⟨[⟨"n", some "Swim", none, none, []⟩]⟩ =
        .error .typeError ∧
      ∀ k, upload_gpx_payload [] [] ⟨[⟨"n", some "Swim", none, none, []⟩]⟩ ≠
        .error (.keyError k) := by
  have h : upload_gpx_payload [] [] ⟨[⟨"n", some "Swim", none, none, []⟩]⟩ =
      .error .typeError := rfl
  exact ⟨h, fun k => by rw [h]; simp⟩

/-- C10 amended: for every parsed GPX file whose first track carries the
embedded JSON comment and whose description holds an activity-type string
that is not a key of the sport_id_map dict, upload_gpx raises a KeyError on
that type while building the payload — it neither falls back to a default
sport id nor skips with a warning; a file whose first track lacks the
comment fails earlier with TypeError instead. -/
theorem unmapped_type_with_comment_raises_keyerror (sports : List Sport)
    (types_by_time : List (Int × Nat)) (g : GPX) (t : GPXTrack)
    (rest : List GPXTrack) (ty : String) (d : ActivityDict)
    (htr : g.tracks = t :: rest) (hd : t.description = some ty)
    (hc : t.comment = some d) (hk : ty ∉ sport_map_keys) :
    upload_gpx_payload sports types_by_time g = .error (.keyError ty) := by
  have hm := sport_id_map_none_of_not_key sports ty hk
  unfold upload_gpx_payload upload_gpx_extract
  rw [htr]
  simp [hc, hd, hm]

/-- Witness for the amended C10 at a concrete file whose first track has
description Swim and an embedded comment. -/
theorem unmapped_type_with_comment_raises_keyerror_witness :
    upload_gpx_payload [] []
        ⟨[⟨"n", some "Swim", none,
          some ⟨"t", ⟨9, "t", 0, "Swim", true, none⟩, 0, [], [], [], [], [],
            DistanceVal.scalar 0, "Swim", "", none, ""⟩, []⟩]⟩ =
      .error (.keyError "Swim") :=
  unmapped_type_with_comment_raises_keyerror [] [] _ _ [] "Swim" _ rfl rfl rfl
    (by simp [sport_map_keys, strava_sport_pairs])

end S2F
